import Mathlib

/-!
Verification of the rooftop-solar counting core (`rooftop_analysis.py`).

The embedding covers the three core components:

* the Spatial Overlap Evaluator `calculate_iou` (lines 23-52 of the source);
* the Per-Frame Association Step, i.e. the inner loop of `callback` that scans
  the solar detections of a frame for one whose IoU with a rooftop box exceeds
  the 0.05 threshold (lines 83-95);
* the Identity Status Ledger: the `rooftop_status` defaultdict (line 21), the
  sets `all_rooftops` / `rooftops_with_solar` (lines 55-56), their per-rooftop
  update in `callback` (lines 78-102), and the derived totals (lines 134-137).

Pixel coordinates are modelled as rationals.  Python's division is fallible at
a zero divisor (`ZeroDivisionError` for scalar floats, `nan` for the numpy
rows that `callback` actually passes), so the evaluator returns `Option ℚ`,
with `none` standing for the undefined / non-numeric result of dividing by a
zero union area.  At the call site (line 93) a `nan` compares `False` against
the threshold, which is what the `none` branch of `iouExceedsThreshold`
mirrors.
-/

namespace RooftopSolar

/-- A bounding box `[x1, y1, x2, y2]`: `(x1, y1)` the top-left corner,
`(x2, y2)` the bottom-right corner, as in the docstring of `calculate_iou`. -/
structure Box where
  x1 : ℚ
  y1 : ℚ
  x2 : ℚ
  y2 : ℚ
deriving DecidableEq, Repr

/-- Well-formedness invariant of §3 of the spec: `x_min ≤ x_max` and
`y_min ≤ y_max` (degenerate boxes with zero area are legal). -/
def wellFormed (b : Box) : Prop := b.x1 ≤ b.x2 ∧ b.y1 ≤ b.y2

instance (b : Box) : Decidable (wellFormed b) := by
  unfold wellFormed; infer_instance

/-- Area of a box as computed in lines 47-48 of the source:
`(box[2] - box[0]) * (box[3] - box[1])`. -/
def boxArea (b : Box) : ℚ := (b.x2 - b.x1) * (b.y2 - b.y1)

/-- The signed intersection-rectangle area of lines 34-44 of the source:
`(x_right - x_left) * (y_bottom - y_top)` with `x_left = max(box1[0], box2[0])`,
`y_top = max(box1[1], box2[1])`, `x_right = min(box1[2], box2[2])`,
`y_bottom = min(box1[3], box2[3])`. -/
def intersectionArea (box1 box2 : Box) : ℚ :=
  (min box1.x2 box2.x2 - max box1.x1 box2.x1) *
    (min box1.y2 box2.y2 - max box1.y1 box2.y1)

/-- `calculate_iou` (source lines 23-52).  Computes the intersection rectangle,
returns `0.0` when it is strictly empty (`x_right < x_left or y_bottom <
y_top`, line 40), and otherwise divides the intersection area by
`box1_area + box2_area - intersection_area` (line 51).  The source has no
guard on that divisor; a zero divisor is an undefined division in Python
(exception or `nan`), modelled here as `none`. -/
def calculate_iou (box1 box2 : Box) : Option ℚ :=
  let x_left := max box1.x1 box2.x1
  let y_top := max box1.y1 box2.y1
  let x_right := min box1.x2 box2.x2
  let y_bottom := min box1.y2 box2.y2
  if x_right < x_left ∨ y_bottom < y_top then
    some 0
  else
    let intersection_area := (x_right - x_left) * (y_bottom - y_top)
    let box1_area := (box1.x2 - box1.x1) * (box1.y2 - box1.y1)
    let box2_area := (box2.x2 - box2.x1) * (box2.y2 - box2.y1)
    let denom := box1_area + box2_area - intersection_area
    if denom = 0 then none else some (intersection_area / denom)

/-- Instrumented copy of `calculate_iou` that additionally counts how many
times the division of line 51 is evaluated (0 or 1), to make "without
evaluating a division" statable about the shallow embedding. -/
def calculate_iou_divCount (box1 box2 : Box) : Option ℚ × Nat :=
  let x_left := max box1.x1 box2.x1
  let y_top := max box1.y1 box2.y1
  let x_right := min box1.x2 box2.x2
  let y_bottom := min box1.y2 box2.y2
  if x_right < x_left ∨ y_bottom < y_top then
    (some 0, 0)
  else
    let intersection_area := (x_right - x_left) * (y_bottom - y_top)
    let box1_area := (box1.x2 - box1.x1) * (box1.y2 - box1.y1)
    let box2_area := (box2.x2 - box2.x1) * (box2.y2 - box2.y1)
    let denom := box1_area + box2_area - intersection_area
    if denom = 0 then (none, 1) else (some (intersection_area / denom), 1)

/-- The decision threshold of line 93 of the source (`iou > 0.05`). -/
def iouThreshold : ℚ := 5 / 100

/-- The comparison `calculate_iou(rooftop_box, solar_box) > 0.05` of line 93.
When the division was undefined the numpy result is `nan`, and `nan > 0.05`
is `False`; hence the `none` case yields `false`. -/
def iouExceedsThreshold (rooftop_box solar_box : Box) : Bool :=
  (calculate_iou rooftop_box solar_box).elim false fun v => decide (iouThreshold < v)

/-- The inner loop of `callback` (lines 87-95): scan the solar boxes in order
and stop (`break`) at the first one whose IoU with the rooftop box exceeds the
threshold. -/
def scanSolar (rooftop_box : Box) : List Box → Bool
  | [] => false
  | s :: rest =>
    if iouExceedsThreshold rooftop_box s then true else scanSolar rooftop_box rest

/-- The association step for one rooftop detection (lines 83-95): `has_solar`
starts `False`, and the scan runs only under the guard
`len(solar_detections.tracker_id) > 0` (line 86). -/
def associateOne (rooftop_box : Box) (solar_boxes : List Box) : Bool :=
  if 0 < solar_boxes.length then scanSolar rooftop_box solar_boxes else false

/-- Instrumented copy of `scanSolar` that also counts the number of
`calculate_iou` invocations made by the loop. -/
def scanSolarCount (rooftop_box : Box) : List Box → Bool × Nat
  | [] => (false, 0)
  | s :: rest =>
    if iouExceedsThreshold rooftop_box s then (true, 1)
    else
      let p := scanSolarCount rooftop_box rest
      (p.1, p.2 + 1)

/-- Instrumented copy of `associateOne` counting `calculate_iou` invocations. -/
def associateOneCount (rooftop_box : Box) (solar_boxes : List Box) : Bool × Nat :=
  if 0 < solar_boxes.length then scanSolarCount rooftop_box solar_boxes else (false, 0)

/-- Per-frame association over all rooftop detections: each rooftop box is
associated independently against the frame's solar boxes (the `for r_idx`
loop of line 78, restricted to its `has_solar` computation). -/
def associateFrame (rooftop_boxes solar_boxes : List Box) : List Bool :=
  rooftop_boxes.map fun r => associateOne r solar_boxes

/-- The Identity Status Ledger: `rooftop_status` (line 21, a
`defaultdict(bool)`, default `False`), `all_rooftops` and
`rooftops_with_solar` (lines 55-56). -/
structure Ledger where
  rooftop_status : Nat → Bool
  all_rooftops : Finset Nat
  rooftops_with_solar : Finset Nat

/-- The ledger at pipeline start: empty mapping (every identity reads as
`false`) and empty sets. -/
def emptyLedger : Ledger :=
  { rooftop_status := fun _ => false
    all_rooftops := ∅
    rooftops_with_solar := ∅ }

/-- One ledger update for one rooftop detection, as performed by `callback`:
`all_rooftops.add(rooftop_id)` (line 80),
`rooftop_status[rooftop_id] = has_solar` (line 98, overwrite), and
`if has_solar: rooftops_with_solar.add(rooftop_id)` (lines 101-102). -/
def recordObservation (L : Ledger) (rooftop_id : Nat) (has_solar : Bool) : Ledger :=
  { rooftop_status := fun j => if j = rooftop_id then has_solar else L.rooftop_status j
    all_rooftops := insert rooftop_id L.all_rooftops
    rooftops_with_solar :=
      if has_solar then insert rooftop_id L.rooftops_with_solar
      else L.rooftops_with_solar }

/-- The read `rooftop_status[int(tracker_id)]` of line 106: latest recorded
status, `false` for a never-recorded identity (defaultdict default). -/
def currentStatus (L : Ledger) (rooftop_id : Nat) : Bool :=
  L.rooftop_status rooftop_id

/-- Replay a sequence of observations `(rooftop_id, has_solar)` on a ledger. -/
def replayFrom (L : Ledger) (obs : List (Nat × Bool)) : Ledger :=
  obs.foldl (fun A ob => recordObservation A ob.1 ob.2) L

/-- Replay a sequence of observations starting from the empty ledger. -/
def replay (obs : List (Nat × Bool)) : Ledger :=
  replayFrom emptyLedger obs

/-- The derived statistics of lines 134-137:
`total_rooftops = len(all_rooftops)`, `total_with_solar =
len(rooftops_with_solar)`, `total_without_solar = total_rooftops -
total_with_solar` (Python integer subtraction, hence `ℤ`). -/
def totals (L : Ledger) : ℤ × ℤ × ℤ :=
  let total_rooftops : ℤ := L.all_rooftops.card
  let total_with_solar : ℤ := L.rooftops_with_solar.card
  (total_rooftops, total_with_solar, total_rooftops - total_with_solar)

/-! ### Helper lemmas -/

/-- When the line-40 test fires (strictly empty intersection rectangle), the
evaluator returns `0.0` immediately. -/
lemma calculate_iou_of_strict_empty (b1 b2 : Box)
    (h : min b1.x2 b2.x2 < max b1.x1 b2.x1 ∨ min b1.y2 b2.y2 < max b1.y1 b2.y1) :
    calculate_iou b1 b2 = some 0 := by
  simp only [calculate_iou]
  rw [if_pos h]

/-- Instrumented variant of `calculate_iou_of_strict_empty`: no division is
evaluated on that path. -/
lemma calculate_iou_divCount_of_strict_empty (b1 b2 : Box)
    (h : min b1.x2 b2.x2 < max b1.x1 b2.x1 ∨ min b1.y2 b2.y2 < max b1.y1 b2.y1) :
    calculate_iou_divCount b1 b2 = (some 0, 0) := by
  simp only [calculate_iou_divCount]
  rw [if_pos h]

/-- When the line-40 test does not fire, the evaluator proceeds to the guarded
division of line 51. -/
lemma calculate_iou_of_nonempty (b1 b2 : Box)
    (h : ¬(min b1.x2 b2.x2 < max b1.x1 b2.x1 ∨ min b1.y2 b2.y2 < max b1.y1 b2.y1)) :
    calculate_iou b1 b2 =
      if (b1.x2 - b1.x1) * (b1.y2 - b1.y1) + (b2.x2 - b2.x1) * (b2.y2 - b2.y1) -
          (min b1.x2 b2.x2 - max b1.x1 b2.x1) * (min b1.y2 b2.y2 - max b1.y1 b2.y1) = 0
      then none
      else
        some ((min b1.x2 b2.x2 - max b1.x1 b2.x1) * (min b1.y2 b2.y2 - max b1.y1 b2.y1) /
          ((b1.x2 - b1.x1) * (b1.y2 - b1.y1) + (b2.x2 - b2.x1) * (b2.y2 - b2.y1) -
            (min b1.x2 b2.x2 - max b1.x1 b2.x1) * (min b1.y2 b2.y2 - max b1.y1 b2.y1))) := by
  simp only [calculate_iou]
  rw [if_neg h]

/-- The short-circuiting scan is the `List.any` of the threshold test. -/
lemma scanSolar_eq_any (r : Box) (l : List Box) :
    scanSolar r l = l.any fun s => iouExceedsThreshold r s := by
  induction l with
  | nil => rfl
  | cons s rest ih =>
    simp only [scanSolar, List.any_cons]
    by_cases h : iouExceedsThreshold r s
    · simp [h]
    · simp [h, ih]

/-- The guarded association step also computes `List.any` (the guard only
skips the scan when the list is empty, where the scan yields `false`
anyway). -/
lemma associateOne_eq_any (r : Box) (l : List Box) :
    associateOne r l = l.any fun s => iouExceedsThreshold r s := by
  cases l with
  | nil => rfl
  | cons s rest => simp [associateOne, scanSolar_eq_any]

/-- `List.any` is invariant under permutation of the list. -/
lemma any_eq_of_perm {l l' : List Box} (h : l.Perm l') (p : Box → Bool) :
    l.any p = l'.any p := by
  rw [Bool.eq_iff_iff, List.any_eq_true, List.any_eq_true]
  constructor
  · rintro ⟨x, hx, hp⟩
    exact ⟨x, h.mem_iff.mp hx, hp⟩
  · rintro ⟨x, hx, hp⟩
    exact ⟨x, h.mem_iff.mpr hx, hp⟩

/-- `recordObservation` preserves `rooftops_with_solar ⊆ all_rooftops`. -/
lemma recordObservation_subset_pres {L : Ledger}
    (h : L.rooftops_with_solar ⊆ L.all_rooftops) (i : Nat) (b : Bool) :
    (recordObservation L i b).rooftops_with_solar ⊆
      (recordObservation L i b).all_rooftops := by
  intro j hj
  simp only [recordObservation] at hj ⊢
  cases b with
  | false => exact Finset.mem_insert_of_mem (h (by simpa using hj))
  | true =>
    rcases Finset.mem_insert.mp (by simpa using hj) with h1 | h1
    · exact Finset.mem_insert.mpr (Or.inl h1)
    · exact Finset.mem_insert_of_mem (h h1)

/-- Replaying preserves `rooftops_with_solar ⊆ all_rooftops`. -/
lemma replayFrom_subset_pres (obs : List (Nat × Bool)) :
    ∀ L : Ledger, L.rooftops_with_solar ⊆ L.all_rooftops →
      (replayFrom L obs).rooftops_with_solar ⊆ (replayFrom L obs).all_rooftops := by
  induction obs with
  | nil => exact fun L h => h
  | cons ob rest ih =>
    intro L h
    simp only [replayFrom, List.foldl_cons] at ih ⊢
    exact ih _ (recordObservation_subset_pres h ob.1 ob.2)

/-- Both ledger sets only grow along a replay. -/
lemma replayFrom_sets_mono (obs : List (Nat × Bool)) :
    ∀ L : Ledger, L.all_rooftops ⊆ (replayFrom L obs).all_rooftops ∧
      L.rooftops_with_solar ⊆ (replayFrom L obs).rooftops_with_solar := by
  induction obs with
  | nil => exact fun L => ⟨Finset.Subset.refl _, Finset.Subset.refl _⟩
  | cons ob rest ih =>
    intro L
    have hall : L.all_rooftops ⊆ (recordObservation L ob.1 ob.2).all_rooftops := by
      simp only [recordObservation]
      exact Finset.subset_insert _ _
    have hsolar : L.rooftops_with_solar ⊆
        (recordObservation L ob.1 ob.2).rooftops_with_solar := by
      simp only [recordObservation]
      cases ob.2 with
      | false => exact Finset.Subset.refl _
      | true => exact Finset.subset_insert _ _
    obtain ⟨h1, h2⟩ := ih (recordObservation L ob.1 ob.2)
    simp only [replayFrom, List.foldl_cons]
    exact ⟨hall.trans h1, hsolar.trans h2⟩

/-- `recordObservation` preserves "every identity currently reading `true` is
in the sticky solar set and in the set of all identities". -/
lemma recordObservation_status_inv {L : Ledger}
    (h : ∀ j, L.rooftop_status j = true →
      j ∈ L.rooftops_with_solar ∧ j ∈ L.all_rooftops) (i : Nat) (b : Bool) :
    ∀ j, (recordObservation L i b).rooftop_status j = true →
      j ∈ (recordObservation L i b).rooftops_with_solar ∧
        j ∈ (recordObservation L i b).all_rooftops := by
  intro j hj
  simp only [recordObservation] at hj ⊢
  by_cases hji : j = i
  · subst hji
    rw [if_pos rfl] at hj
    subst hj
    exact ⟨by simp, by simp⟩
  · rw [if_neg hji] at hj
    obtain ⟨hs, ha⟩ := h j hj
    refine ⟨?_, Finset.mem_insert_of_mem ha⟩
    cases b with
    | false => exact hs
    | true => exact Finset.mem_insert_of_mem hs

/-- Replaying preserves the current-status invariant of
`recordObservation_status_inv`. -/
lemma replayFrom_status_inv (obs : List (Nat × Bool)) :
    ∀ L : Ledger, (∀ j, L.rooftop_status j = true →
        j ∈ L.rooftops_with_solar ∧ j ∈ L.all_rooftops) →
      ∀ j, (replayFrom L obs).rooftop_status j = true →
        j ∈ (replayFrom L obs).rooftops_with_solar ∧
          j ∈ (replayFrom L obs).all_rooftops := by
  induction obs with
  | nil => exact fun L h => h
  | cons ob rest ih =>
    intro L h
    simp only [replayFrom, List.foldl_cons] at ih ⊢
    exact ih _ (recordObservation_status_inv h ob.1 ob.2)

/-! ### Claim theorems -/

/-- **C1.** The claim says the zero-union case is handled locally by returning
0.  It is not: for two degenerate boxes at the same location the line-40 test
does not fire, the union area `box1_area + box2_area - intersection_area` is
0, and line 51 divides by it — an undefined division (`ZeroDivisionError` for
scalar floats, `nan` for numpy rows), not the value 0.  This theorem evaluates
the code at the failing input. -/
theorem c1_zero_union_division_is_undefined :
    boxArea ⟨0, 0, 0, 0⟩ + boxArea ⟨0, 0, 0, 0⟩ -
        intersectionArea ⟨0, 0, 0, 0⟩ ⟨0, 0, 0, 0⟩ = 0 ∧
    calculate_iou ⟨0, 0, 0, 0⟩ ⟨0, 0, 0, 0⟩ = none := by
  constructor
  · norm_num [boxArea, intersectionArea, min_def, max_def]
  · norm_num [calculate_iou, min_def, max_def]

/-- **C5 counterexample.** The claim says a box with inconsistent corner
ordering is rejected (fail fast).  It is not: for the malformed box
`[10, 0, 0, 10]` (`x_min = 10 > x_max = 0`) the evaluator silently returns the
value `0.0` instead of failing. -/
theorem c5_malformed_box_not_rejected :
    (10 : ℚ) > 0 ∧
    calculate_iou ⟨10, 0, 0, 10⟩ ⟨0, 0, 10, 10⟩ = some 0 := by
  constructor
  · norm_num
  · norm_num [calculate_iou, min_def, max_def]

/-- **C5 amended.** The core performs no validation at all: a pair in which
either box has inconsistent corner ordering is never rejected; the inverted
axis forces the line-40 emptiness test to fire, so the evaluator silently
returns 0 (and in particular no negative area ever reaches the overlap
ratio). -/
theorem c5_malformed_box_silently_yields_zero (b1 b2 : Box)
    (h : b1.x2 < b1.x1 ∨ b1.y2 < b1.y1 ∨ b2.x2 < b2.x1 ∨ b2.y2 < b2.y1) :
    calculate_iou b1 b2 = some 0 := by
  apply calculate_iou_of_strict_empty
  rcases h with h | h | h | h
  · exact Or.inl (lt_of_le_of_lt (min_le_left _ _) (lt_of_lt_of_le h (le_max_left _ _)))
  · exact Or.inr (lt_of_le_of_lt (min_le_left _ _) (lt_of_lt_of_le h (le_max_left _ _)))
  · exact Or.inl (lt_of_le_of_lt (min_le_right _ _) (lt_of_lt_of_le h (le_max_right _ _)))
  · exact Or.inr (lt_of_le_of_lt (min_le_right _ _) (lt_of_lt_of_le h (le_max_right _ _)))

/-- Witness for `c5_malformed_box_silently_yields_zero` at the malformed box
`[0, 10, 10, 0]` (`y_min = 10 > y_max = 0`). -/
theorem c5_malformed_box_silently_yields_zero_witness :
    calculate_iou ⟨0, 10, 10, 0⟩ ⟨0, 0, 10, 10⟩ = some 0 :=
  c5_malformed_box_silently_yields_zero ⟨0, 10, 10, 0⟩ ⟨0, 0, 10, 10⟩ (by norm_num)

/-- **C6.** In a frame with zero solar-panel detections, every rooftop
detection is associated `false`, and the overlap evaluator is never invoked
(the instrumented scan performs zero `calculate_iou` calls for every rooftop
box). -/
theorem c6_empty_solar_all_false_no_iou_calls (rooftop_boxes : List Box) (r : Box) :
    associateFrame rooftop_boxes [] = rooftop_boxes.map (fun _ => false) ∧
    associateOneCount r [] = (false, 0) := by
  constructor
  · simp [associateFrame, associateOne]
  · rfl

/-- **C7 counterexample.** The claim reads "intersection rectangle is empty"
as "no positive-area overlap / zero geometric intersection" and asserts the
evaluator then returns exactly 0 via the empty-intersection branch.  For the
pair of coincident zero-width boxes `[0, 0, 0, 10]` the geometric intersection
area is 0, yet the strict test of line 40 does not fire and the evaluator
falls through to the division, whose result at this input is undefined
(`none`), not 0. -/
theorem c7_zero_area_overlap_not_returning_zero :
    intersectionArea ⟨0, 0, 0, 10⟩ ⟨0, 0, 0, 10⟩ = 0 ∧
    calculate_iou ⟨0, 0, 0, 10⟩ ⟨0, 0, 0, 10⟩ = none := by
  constructor
  · norm_num [intersectionArea, min_def, max_def]
  · norm_num [calculate_iou, min_def, max_def]

/-- **C7 amended.** For every pair whose intersection rectangle is empty in
the strict sense actually tested on line 40 (`x_right < x_left` or
`y_bottom < y_top`), the evaluator returns exactly 0 through that branch and
evaluates no division.  (Pairs with zero-area but non-strictly-empty
intersection instead reach the division: 0 when the union area is positive,
undefined when it is zero.) -/
theorem c7_strictly_empty_intersection_yields_zero_without_division (b1 b2 : Box)
    (h : min b1.x2 b2.x2 < max b1.x1 b2.x1 ∨ min b1.y2 b2.y2 < max b1.y1 b2.y1) :
    calculate_iou b1 b2 = some 0 ∧ (calculate_iou_divCount b1 b2).2 = 0 := by
  refine ⟨calculate_iou_of_strict_empty b1 b2 h, ?_⟩
  rw [calculate_iou_divCount_of_strict_empty b1 b2 h]

/-- Witness for
`c7_strictly_empty_intersection_yields_zero_without_division` on two disjoint
boxes. -/
theorem c7_strictly_empty_intersection_witness :
    calculate_iou ⟨0, 0, 10, 10⟩ ⟨100, 100, 110, 110⟩ = some 0 ∧
    (calculate_iou_divCount ⟨0, 0, 10, 10⟩ ⟨100, 100, 110, 110⟩).2 = 0 :=
  c7_strictly_empty_intersection_yields_zero_without_division
    ⟨0, 0, 10, 10⟩ ⟨100, 100, 110, 110⟩ (by norm_num [min_def, max_def])

/-- **C2.** A rooftop detection is marked has-solar exactly when some solar
detection of the frame passes the threshold test `iou > 0.05`, and since the
short-circuiting scan computes exactly that existential, the boolean is
unchanged under every permutation of the solar-detection sequence. -/
theorem c2_association_exists_iff_and_perm_invariant (r : Box)
    (solar solar2 : List Box) (hperm : solar.Perm solar2) :
    (associateOne r solar = true ↔ ∃ s ∈ solar, iouExceedsThreshold r s = true) ∧
    associateOne r solar = associateOne r solar2 := by
  constructor
  · rw [associateOne_eq_any, List.any_eq_true]
  · rw [associateOne_eq_any, associateOne_eq_any]
    exact any_eq_of_perm hperm _

/-- Witness for `c2_association_exists_iff_and_perm_invariant`: the spec's
scenario boxes, with the qualifying solar box in second and first position. -/
theorem c2_association_witness :
    (associateOne ⟨0, 0, 10, 10⟩
        [⟨100, 100, 110, 110⟩, ⟨5, 5, 15, 15⟩] = true ↔
      ∃ s ∈ [(⟨100, 100, 110, 110⟩ : Box), ⟨5, 5, 15, 15⟩],
        iouExceedsThreshold ⟨0, 0, 10, 10⟩ s = true) ∧
    associateOne ⟨0, 0, 10, 10⟩ [⟨100, 100, 110, 110⟩, ⟨5, 5, 15, 15⟩] =
      associateOne ⟨0, 0, 10, 10⟩ [⟨5, 5, 15, 15⟩, ⟨100, 100, 110, 110⟩] :=
  c2_association_exists_iff_and_perm_invariant ⟨0, 0, 10, 10⟩
    [⟨100, 100, 110, 110⟩, ⟨5, 5, 15, 15⟩] [⟨5, 5, 15, 15⟩, ⟨100, 100, 110, 110⟩]
    (List.Perm.swap _ _ _)

/-- **C3.** Observing an identity with solar and later without: the current
status is overwritten to `false`, but the identity stays in the sticky set
`rooftops_with_solar` (and in `all_rooftops`) and is still counted in
`total_with_solar`. -/
theorem c3_overwrite_status_sticky_set (L : Ledger) (id : Nat) :
    currentStatus (recordObservation (recordObservation L id true) id false) id = false ∧
    id ∈ (recordObservation (recordObservation L id true) id false).rooftops_with_solar ∧
    id ∈ (recordObservation (recordObservation L id true) id false).all_rooftops ∧
    1 ≤ (totals (recordObservation (recordObservation L id true) id false)).2.1 := by
  have hmem : id ∈ (recordObservation (recordObservation L id true) id
      false).rooftops_with_solar := by
    simp [recordObservation]
  refine ⟨by simp [currentStatus, recordObservation], hmem, by simp [recordObservation], ?_⟩
  have hpos : 0 < (recordObservation (recordObservation L id true) id
      false).rooftops_with_solar.card :=
    Finset.card_pos.mpr ⟨id, hmem⟩
  simp only [totals]
  exact_mod_cast hpos

/-- **C4.** After every sequence of `recordObservation` calls starting from
the empty ledger, `rooftops_with_solar ⊆ all_rooftops`, and the derived
`total_without_solar = total_rooftops - total_with_solar` is never
negative. -/
theorem c4_subset_invariant_and_nonneg_without_solar (obs : List (Nat × Bool)) :
    (replay obs).rooftops_with_solar ⊆ (replay obs).all_rooftops ∧
    0 ≤ (totals (replay obs)).2.2 := by
  have hsub : (replay obs).rooftops_with_solar ⊆ (replay obs).all_rooftops := by
    simp only [replay]
    exact replayFrom_subset_pres obs emptyLedger (by intro j hj; simp [emptyLedger] at hj)
  refine ⟨hsub, ?_⟩
  have hcard := Finset.card_le_card hsub
  simp only [totals, sub_nonneg]
  exact_mod_cast hcard

/-- **C8.** Across every sequence of `recordObservation` calls, neither ledger
set ever loses an element, and hence both sizes are non-decreasing. -/
theorem c8_ledger_sets_monotone (L : Ledger) (obs : List (Nat × Bool)) :
    L.all_rooftops ⊆ (replayFrom L obs).all_rooftops ∧
    L.rooftops_with_solar ⊆ (replayFrom L obs).rooftops_with_solar ∧
    L.all_rooftops.card ≤ (replayFrom L obs).all_rooftops.card ∧
    L.rooftops_with_solar.card ≤ (replayFrom L obs).rooftops_with_solar.card := by
  obtain ⟨h1, h2⟩ := replayFrom_sets_mono obs L
  exact ⟨h1, h2, Finset.card_le_card h1, Finset.card_le_card h2⟩

/-- **C10.** Implicit invariant: starting from the empty ledger, after any
sequence of `recordObservation` calls, every identity whose current status
reads `true` is a member of the sticky solar set, and hence of the set of all
identities. -/
theorem c10_status_true_implies_memberships (obs : List (Nat × Bool)) (id : Nat)
    (h : (replay obs).rooftop_status id = true) :
    id ∈ (replay obs).rooftops_with_solar ∧ id ∈ (replay obs).all_rooftops := by
  have hbase : ∀ j, emptyLedger.rooftop_status j = true →
      j ∈ emptyLedger.rooftops_with_solar ∧ j ∈ emptyLedger.all_rooftops := by
    intro j hj
    simp [emptyLedger] at hj
  exact replayFrom_status_inv obs emptyLedger hbase id h

/-- Witness for `c10_status_true_implies_memberships`: identity 7 recorded
once with solar. -/
theorem c10_status_true_witness :
    7 ∈ (replay [(7, true)]).rooftops_with_solar ∧
    7 ∈ (replay [(7, true)]).all_rooftops :=
  c10_status_true_implies_memberships [(7, true)] 7 (by
    simp [replay, replayFrom, emptyLedger, recordObservation])

/-- **C9 counterexample.** The claim promises a value in `[0, 1]` for every
pair of well-formed boxes, degenerate boxes included.  For the well-formed
degenerate box `[2, 3, 2, 3]` paired with itself the evaluator reaches the
division with a zero union area and the result is undefined, not a value in
`[0, 1]`. -/
theorem c9_wellformed_degenerate_pair_undefined :
    wellFormed ⟨2, 3, 2, 3⟩ ∧ calculate_iou ⟨2, 3, 2, 3⟩ ⟨2, 3, 2, 3⟩ = none := by
  constructor
  · norm_num [wellFormed]
  · norm_num [calculate_iou, min_def, max_def]

/-- **C9 amended.** For every pair of well-formed boxes at least one of which
has positive area (equivalently, whose union area is nonzero), the evaluator
returns a value, and that unclamped value lies in `[0, 1]`. -/
theorem c9_iou_in_unit_interval (b1 b2 : Box)
    (h1 : wellFormed b1) (h2 : wellFormed b2)
    (hpos : 0 < boxArea b1 ∨ 0 < boxArea b2) :
    ∃ v, calculate_iou b1 b2 = some v ∧ 0 ≤ v ∧ v ≤ 1 := by
  obtain ⟨hx1, hy1⟩ := h1
  obtain ⟨hx2, hy2⟩ := h2
  simp only [boxArea] at hpos
  by_cases hempty : min b1.x2 b2.x2 < max b1.x1 b2.x1 ∨ min b1.y2 b2.y2 < max b1.y1 b2.y1
  · exact ⟨0, calculate_iou_of_strict_empty b1 b2 hempty, le_refl 0, by norm_num⟩
  · have hx : max b1.x1 b2.x1 ≤ min b1.x2 b2.x2 :=
      le_of_not_lt fun hc => hempty (Or.inl hc)
    have hy : max b1.y1 b2.y1 ≤ min b1.y2 b2.y2 :=
      le_of_not_lt fun hc => hempty (Or.inr hc)
    have hIx : (0 : ℚ) ≤ min b1.x2 b2.x2 - max b1.x1 b2.x1 := sub_nonneg.mpr hx
    have hIy : (0 : ℚ) ≤ min b1.y2 b2.y2 - max b1.y1 b2.y1 := sub_nonneg.mpr hy
    have hwx1 : min b1.x2 b2.x2 - max b1.x1 b2.x1 ≤ b1.x2 - b1.x1 :=
      sub_le_sub (min_le_left _ _) (le_max_left _ _)
    have hwy1 : min b1.y2 b2.y2 - max b1.y1 b2.y1 ≤ b1.y2 - b1.y1 :=
      sub_le_sub (min_le_left _ _) (le_max_left _ _)
    have hwx2 : min b1.x2 b2.x2 - max b1.x1 b2.x1 ≤ b2.x2 - b2.x1 :=
      sub_le_sub (min_le_right _ _) (le_max_right _ _)
    have hwy2 : min b1.y2 b2.y2 - max b1.y1 b2.y1 ≤ b2.y2 - b2.y1 :=
      sub_le_sub (min_le_right _ _) (le_max_right _ _)
    have hw1x : (0 : ℚ) ≤ b1.x2 - b1.x1 := sub_nonneg.mpr hx1
    have hw2x : (0 : ℚ) ≤ b2.x2 - b2.x1 := sub_nonneg.mpr hx2
    have hinter : (0 : ℚ) ≤ (min b1.x2 b2.x2 - max b1.x1 b2.x1) *
        (min b1.y2 b2.y2 - max b1.y1 b2.y1) := mul_nonneg hIx hIy
    have hI1 : (min b1.x2 b2.x2 - max b1.x1 b2.x1) *
        (min b1.y2 b2.y2 - max b1.y1 b2.y1) ≤ (b1.x2 - b1.x1) * (b1.y2 - b1.y1) :=
      mul_le_mul hwx1 hwy1 hIy hw1x
    have hI2 : (min b1.x2 b2.x2 - max b1.x1 b2.x1) *
        (min b1.y2 b2.y2 - max b1.y1 b2.y1) ≤ (b2.x2 - b2.x1) * (b2.y2 - b2.y1) :=
      mul_le_mul hwx2 hwy2 hIy hw2x
    have hdpos : (0 : ℚ) < (b1.x2 - b1.x1) * (b1.y2 - b1.y1) +
        (b2.x2 - b2.x1) * (b2.y2 - b2.y1) -
        (min b1.x2 b2.x2 - max b1.x1 b2.x1) * (min b1.y2 b2.y2 - max b1.y1 b2.y1) := by
      rcases hpos with hp | hp
      · linarith
      · linarith
    have hdne : (b1.x2 - b1.x1) * (b1.y2 - b1.y1) +
        (b2.x2 - b2.x1) * (b2.y2 - b2.y1) -
        (min b1.x2 b2.x2 - max b1.x1 b2.x1) *
          (min b1.y2 b2.y2 - max b1.y1 b2.y1) ≠ 0 := ne_of_gt hdpos
    rw [calculate_iou_of_nonempty b1 b2 hempty, if_neg hdne]
    refine ⟨_, rfl, div_nonneg hinter (le_of_lt hdpos), ?_⟩
    rw [div_le_one hdpos]
    linarith

/-- Witness for `c9_iou_in_unit_interval`: the spec's scenario pair
`[0, 0, 10, 10]` and `[5, 5, 15, 15]` (overlap `25 / 175 = 1/7`). -/
theorem c9_iou_in_unit_interval_witness :
    ∃ v, calculate_iou ⟨0, 0, 10, 10⟩ ⟨5, 5, 15, 15⟩ = some v ∧ 0 ≤ v ∧ v ≤ 1 :=
  c9_iou_in_unit_interval ⟨0, 0, 10, 10⟩ ⟨5, 5, 15, 15⟩
    (by norm_num [wellFormed]) (by norm_num [wellFormed])
    (Or.inl (by norm_num [boxArea]))

end RooftopSolar
